import Mathlib

/-!
Verification development for the DIU admission portal backend (src/app.py).

The file shallowly embeds the three decision engines of the application:

* the waiver eligibility evaluator (DIUWaiverCalculator.calculate_waivers),
* the department recommender (recommend_programs),
* the FAQ matcher (chat_with_bot).

Conventions of the embedding:

* Python floats are modelled as rationals (exact arithmetic over ℚ);
* Python dict lookups with .get are modelled as Option-valued record fields,
  and Python truthiness of the looked-up value is made explicit (truthyB,
  truthyQ below);
* the SQLite reads (program codes of a faculty, the department table, the
  FAQ table) are snapshots passed as explicit arguments, as the spec
  describes them (external collaborator contracts);
* Python sorted(..., key=..., reverse=True) is a stable sort and is modelled
  with List.insertionSort on the reversed comparison, which is stable and
  agrees with any stable sort on the same total preorder;
* the cosine similarity array produced by scikit-learn
  (cosine_similarity(user_vector, tfidf_matrix)) is external library code;
  it enters the embedding as an explicit argument (one rational per
  department index), exactly at the boundary where app.py consumes it;
* difflib.SequenceMatcher.ratio (Python standard library) is embedded
  directly: longest matching block, recursive block decomposition,
  ratio = 2 * matches / total length.  The autojunk heuristic of difflib
  only activates when the second sequence has at least 200 elements; it is
  not modelled (equivalently: the embedding is difflib with autojunk
  disabled, which coincides with difflib on the FAQ-sized strings at issue);
* str.lower is modelled per character (ASCII case folding, as Char.toLower).
-/

/-! ## Waiver eligibility evaluator (app.py lines 409-515) -/

/-- Student profile: the open attribute dict student_profile of app.py.
The evaluator reads exactly these seven keys with .get; an absent key is
None in Python and none here. -/
structure StudentProfile where
  family_income : Option ℚ
  is_freedom_fighter_child : Option Bool
  is_diu_employee_relative : Option Bool
  has_sports_achievement : Option Bool
  has_diploma : Option Bool
  group_admission : Option Bool
  is_international_student : Option Bool
deriving DecidableEq

/-- Python truthiness of an optional boolean: None and False are falsy. -/
def truthyB (o : Option Bool) : Bool :=
  o.getD false

/-- Python truthiness of an optional number: None and 0 are falsy. -/
def truthyQ (o : Option ℚ) : Bool :=
  match o with
  | none => false
  | some v => decide (v ≠ 0)

/-- The waiver_rate field of a waiver record: app.py accepts either a single
percentage string or a list of them and parses each with int(r.strip("%")).
The parsed integer values are carried here. -/
inductive RateVal where
  | single (pct : Int)
  | multiple (pcts : List Int)
deriving DecidableEq

/-- A waiver rule, as loaded from data/waivers.json (table schema of app.py). -/
structure Waiver where
  id : String
  name : String
  category : String
  description : String
  waiver_rate : RateVal
  eligibility_criteria : List String
  required_documents : List String
  deadline : String
  applicable_programs : List String
  sgpa_required : ℚ
deriving DecidableEq

/-- app.py lines 440-444: the displayed percentage is the maximum of the
parsed rates when waiver_rate is a list, else the single parsed rate.
(Python max on an empty list raises; the 0 default is unreachable for the
seeded data and never relied on by a theorem below.) -/
def waiverPercentage (w : Waiver) : Int :=
  match w.waiver_rate with
  | RateVal.single p => p
  | RateVal.multiple ps => (ps.max?).getD 0

/-- app.py line 436: a waiver applies when some program code of the faculty
occurs in its applicable_programs. -/
def applicableTo (program_codes : List String) (w : Waiver) : Bool :=
  program_codes.any (fun code => w.applicable_programs.contains code)

/-- app.py lines 455-459: the family-income criterion FAILS when
student_profile.get("family_income") is falsy (absent, None or 0) or the
value is at least 50000. -/
def familyIncomeFails (p : StudentProfile) : Bool :=
  !truthyQ p.family_income || decide (p.family_income.getD 0 ≥ 50000)

/-- app.py lines 446-492: meets_criteria.  Each recognized criterion tag
that occurs in eligibility_criteria must pass; the final conjunct is the
SGPA gate for continuing students.  Tags other than the ten recognized
ones are never consulted by the code. -/
def meetsCriteria (ssc_gpa hsc_gpa : ℚ) (is_new_student : Bool)
    (current_sgpa : ℚ) (p : StudentProfile) (w : Waiver) : Bool :=
  let criteria := w.eligibility_criteria
  !(criteria.contains "SSC GPA 5.0" && decide (ssc_gpa < 5)) &&
  !(criteria.contains "HSC GPA 5.0" && decide (hsc_gpa < 5)) &&
  !(criteria.contains "HSC GPA 4.90-4.99" &&
      (decide (hsc_gpa < 49/10) || decide (hsc_gpa > 499/100))) &&
  !(criteria.contains "Family income below 50,000 BDT/month" &&
      familyIncomeFails p) &&
  !(criteria.contains "Child of freedom fighter" &&
      !truthyB p.is_freedom_fighter_child) &&
  !(criteria.contains "DIU employee or immediate relative" &&
      !truthyB p.is_diu_employee_relative) &&
  !(criteria.contains "National or premier division sports achievement" &&
      !truthyB p.has_sports_achievement) &&
  !(criteria.contains "Diploma in relevant field" &&
      !truthyB p.has_diploma) &&
  !(criteria.contains "Group admission of 5 or more students" &&
      !truthyB p.group_admission) &&
  !(criteria.contains "International student status" &&
      !truthyB p.is_international_student) &&
  !(decide (w.sgpa_required > 0) && !is_new_student &&
      decide (current_sgpa < w.sgpa_required))

/-- An entry of the eligible list built in app.py lines 494-508.  The code
stores the percentage as the string str(waiver_percentage) + "%" and later
re-parses it with int(x.strip("%")) as sort key; since that round trip is
the identity the numeric percentage pct is carried alongside the display
string and used as the sort key. -/
structure EligibleWaiver where
  id : String
  name : String
  category : String
  description : String
  pct : Int
  waiver_percentage : String
  eligibility_criteria : List String
  required_documents : List String
  deadline : String
  applicable_programs : List String
  sgpa_required : ℚ
deriving DecidableEq

/-- app.py lines 495-508: the record appended for a qualifying waiver. -/
def mkEligible (w : Waiver) : EligibleWaiver :=
  { id := w.id
    name := w.name
    category := w.category
    description := w.description
    pct := waiverPercentage w
    waiver_percentage := toString (waiverPercentage w) ++ "%"
    eligibility_criteria := w.eligibility_criteria
    required_documents := w.required_documents
    deadline := w.deadline
    applicable_programs := w.applicable_programs
    sgpa_required := w.sgpa_required }

/-- The unsorted eligible list: waivers that are applicable to the faculty
and meet all recognized criteria, in waiver-table order (the loop of
app.py lines 429-508). -/
def eligibleList (program_codes : List String) (waiver_data : List Waiver)
    (ssc_gpa hsc_gpa : ℚ) (is_new_student : Bool) (current_sgpa : ℚ)
    (p : StudentProfile) : List EligibleWaiver :=
  (waiver_data.filter (fun w =>
    applicableTo program_codes w &&
    meetsCriteria ssc_gpa hsc_gpa is_new_student current_sgpa p w)).map mkEligible

/-- app.py lines 510-512: sorted(eligible, key=percentage, reverse=True).
Python sorting is stable; insertionSort on the reversed comparison is the
stable descending sort. -/
def sortEligible (l : List EligibleWaiver) : List EligibleWaiver :=
  @List.insertionSort _ (fun a b => b.pct ≤ a.pct)
    (fun _ _ => inferInstance) l

/-- DIUWaiverCalculator.calculate_waivers (app.py lines 417-512).
program_codes is the snapshot SELECT code FROM programs WHERE
department_code = faculty, identical in every loop iteration. -/
def calculate_waivers (program_codes : List String)
    (waiver_data : List Waiver) (ssc_gpa hsc_gpa : ℚ)
    (is_new_student : Bool) (current_sgpa : ℚ)
    (p : StudentProfile) : List EligibleWaiver :=
  sortEligible
    (eligibleList program_codes waiver_data ssc_gpa hsc_gpa
      is_new_student current_sgpa p)

/-- The profile with every optional attribute absent. -/
def emptyProfile : StudentProfile :=
  { family_income := none
    is_freedom_fighter_child := none
    is_diu_employee_relative := none
    has_sports_achievement := none
    has_diploma := none
    group_admission := none
    is_international_student := none }

/-! ## Department recommender (app.py lines 598-688) -/

/-- A department record, as read from the departments table (app.py
lines 603-620). -/
structure Department where
  name : String
  code : String
  contact : String
  head : String
  description : String
  programs : List String
  faculty : String
  location : String
  website : String
  established_year : Int
  student_capacity : Int
  accreditation : String
deriving DecidableEq

/-- The recommender request body RecommendationInput (app.py lines 395-400). -/
structure RecommendationInput where
  interests : List String
  academic_background : String
  career_goals : List String
  ssc_gpa : Option ℚ
  hsc_gpa : Option ℚ
deriving DecidableEq

/-- Python str.join: sep.join(l). -/
def pyJoin (sep : String) : List String → String
  | [] => ""
  | [x] => x
  | x :: y :: xs => x ++ sep ++ pyJoin sep (y :: xs)

/-- Python str.lower, per character (ASCII case folding). -/
def pyLower (s : String) : String :=
  String.mk (s.toList.map Char.toLower)

/-- Python substring containment on character lists: needle occurs
contiguously in hay. -/
def hasSubstr (needle hay : List Char) : Bool :=
  (List.range (hay.length + 1)).any
    (fun i => decide ((hay.drop i).take needle.length = needle))

/-- The lowered substring test of app.py: needle.lower() in hay.lower(). -/
def lowerIn (needle hay : String) : Bool :=
  hasSubstr (pyLower needle).toList (pyLower hay).toList

/-- app.py lines 645-648 (and the matching_interests filter, lines 656-661):
an interest matches a department when it occurs, lowered, in the description
or in the space-joined program names. -/
def interestMatches (dept : Department) (interest : String) : Bool :=
  lowerIn interest dept.description || lowerIn interest (pyJoin " " dept.programs)

/-- app.py line 651: a career goal matches when it occurs, lowered, in the
description. -/
def goalMatches (dept : Department) (goal : String) : Bool :=
  lowerIn goal dept.description

/-- app.py lines 643-652: keyword_boost accumulates 0.1 per matching
interest, then 0.1 per matching career goal. -/
def keywordBoost (interests career_goals : List String) (dept : Department) : ℚ :=
  let afterInterests := interests.foldl
    (fun kb interest => if interestMatches dept interest then kb + 0.1 else kb) 0
  career_goals.foldl
    (fun kb goal => if goalMatches dept goal then kb + 0.1 else kb) afterInterests

/-- app.py line 653: total_score = base_score + keyword_boost, where
base_score = similarities[i] is the cosine similarity computed upstream. -/
def totalScore (base_score : ℚ) (input : RecommendationInput)
    (dept : Department) : ℚ :=
  base_score + keywordBoost input.interests input.career_goals dept

/-- app.py line 632: the query document handed to the vectorizer. -/
def user_text (input : RecommendationInput) : String :=
  pyJoin " " input.interests ++ " " ++ input.academic_background ++ " " ++
    pyJoin " " input.career_goals

/-- app.py lines 655-670: the reasons list of a candidate. -/
def reasonsFor (input : RecommendationInput) (dept : Department) : List String :=
  let matching_interests := input.interests.filter (interestMatches dept)
  let matching_goals := input.career_goals.filter (goalMatches dept)
  let rs :=
    (if matching_interests ≠ [] then
      ["Matches interests: " ++ pyJoin ", " matching_interests] else []) ++
    (if matching_goals ≠ [] then
      ["Aligns with goals: " ++ pyJoin ", " matching_goals] else [])
  if rs = [] then ["General match based on profile"] else rs

/-- One recommendation record (app.py lines 671-684). -/
structure Recommendation where
  deptName : String
  deptDescription : String
  deptPrograms : List String
  deptFaculty : String
  deptContact : String
  deptWebsite : String
  match_score : ℚ
  reasons : List String
deriving DecidableEq

/-- app.py lines 671-684: the record appended for a candidate department. -/
def mkRecommendation (base_score : ℚ) (input : RecommendationInput)
    (dept : Department) : Recommendation :=
  { deptName := dept.name
    deptDescription := dept.description
    deptPrograms := dept.programs
    deptFaculty := dept.faculty
    deptContact := dept.contact
    deptWebsite := dept.website
    match_score := totalScore base_score input dept
    reasons := reasonsFor input dept }

/-- The candidate list of app.py lines 641-684: departments, scanned with
their index i (base score similarities[i]), kept when total_score > 0.2. -/
def candidates (departments : List Department) (similarities : List ℚ)
    (input : RecommendationInput) : List Recommendation :=
  ((departments.enum).filter (fun pair =>
    decide (totalScore (similarities.getD pair.1 0) input pair.2 > 0.2))).map
    (fun pair => mkRecommendation (similarities.getD pair.1 0) input pair.2)

/-- app.py line 686: recommendations.sort(key=match_score, reverse=True),
a stable descending sort. -/
def sortRecommendations (l : List Recommendation) : List Recommendation :=
  @List.insertionSort _ (fun a b => b.match_score ≤ a.match_score)
    (fun _ _ => inferInstance) l

/-- recommend_programs (app.py lines 598-688).  departments and
similarities are the per-request snapshots (department table, cosine
similarity row); the function returns the top five candidates by score.
The unused avg_gpa binding of lines 638-640 is reproduced faithfully:
it reads the GPA fields and is then dead. -/
def recommend_programs (departments : List Department)
    (similarities : List ℚ) (input : RecommendationInput) :
    List Recommendation :=
  let avg_gpa : ℚ :=
    if truthyQ input.ssc_gpa && truthyQ input.hsc_gpa then
      (input.ssc_gpa.getD 0 + input.hsc_gpa.getD 0) / 2
    else 0
  (sortRecommendations (candidates departments similarities input)).take 5

/-! ## FAQ matcher (app.py lines 760-798) and difflib.SequenceMatcher -/

/-- One contiguous matching block of difflib: the k characters of a
starting at i equal the k characters of b starting at j. -/
def isMatchAt (a b : List Char) (i j k : Nat) : Bool :=
  decide (i + k ≤ a.length) && decide (j + k ≤ b.length) &&
  decide ((a.drop i).take k = (b.drop j).take k)

/-- All candidate blocks (i, j, k), enumerated by size k descending, then
start i ascending, then start j ascending.  This is the preference order of
find_longest_match of difflib: maximal size, then earliest in a, then
earliest in b. -/
def matchCandidates (a b : List Char) : List (Nat × Nat × Nat) :=
  ((List.range (Nat.min a.length b.length + 1)).reverse).flatMap (fun k =>
    (List.range (a.length + 1)).flatMap (fun i =>
      (List.range (b.length + 1)).map (fun j => (i, j, k))))

/-- find_longest_match of difflib.SequenceMatcher over the whole ranges:
the first candidate block, in the preference order above, that actually
matches.  The default (0, 0, 0) is never used, since (0, 0, 0) is itself a
matching candidate. -/
def find_longest_match (a b : List Char) : Nat × Nat × Nat :=
  ((matchCandidates a b).find? (fun t => isMatchAt a b t.1 t.2.1 t.2.2)).getD
    (0, 0, 0)

/-- Total size of the matching blocks of difflib (sum over
get_matching_blocks): the longest match is taken and the two remaining
flanks are matched recursively.  The fuel argument bounds the recursion
depth; since every recursive call strictly decreases the combined length,
fuel = a.length + b.length always suffices (matchingTotal below). -/
def matchingTotalAux (fuel : Nat) (a b : List Char) : Nat :=
  match fuel with
  | 0 => 0
  | fuel + 1 =>
    let t := find_longest_match a b
    if t.2.2 = 0 then 0
    else
      matchingTotalAux fuel (a.take t.1) (b.take t.2.1) + t.2.2 +
        matchingTotalAux fuel (a.drop (t.1 + t.2.2)) (b.drop (t.2.1 + t.2.2))

/-- Total number of matched characters between a and b (difflib M). -/
def matchingTotal (a b : List Char) : Nat :=
  matchingTotalAux (a.length + b.length) a b

/-- difflib.SequenceMatcher(None, a, b).ratio() = 2 * M / T where T is the
combined length, and 1.0 when both strings are empty. -/
def ratio (a b : String) : ℚ :=
  if a.toList.length + b.toList.length = 0 then 1
  else 2 * (matchingTotal a.toList b.toList : ℚ) /
    ((a.toList.length + b.toList.length : Nat) : ℚ)

/-- An FAQ entry as read in app.py lines 764-768. -/
structure FAQEntry where
  question : String
  answer : String
  keywords : String
deriving DecidableEq

/-- The chat request body ChatInput (app.py lines 403-405). -/
structure ChatInput where
  message : String
  session_id : String
deriving DecidableEq

/-- Python str.split(sep) for a nonempty separator, on character lists,
with a fuel bound (fuel = length of the input plus one always suffices:
every step consumes at least one character). -/
def splitSepAux (sep : List Char) : Nat → List Char → List (List Char)
  | 0, s => [s]
  | _ + 1, [] => [[]]
  | fuel + 1, c :: cs =>
    if (c :: cs).take sep.length = sep then
      [] :: splitSepAux sep fuel ((c :: cs).drop sep.length)
    else
      match splitSepAux sep fuel cs with
      | [] => [[c]]
      | t :: ts => (c :: t) :: ts

/-- Python str.split(sep): faq["keywords"].split(", ") in app.py. -/
def pySplit (sep s : String) : List String :=
  (splitSepAux sep.toList (s.toList.length + 1) s.toList).map String.mk

/-- app.py lines 777-788: the keyword similarity of an entry is the maximum
ratio of the message against each comma-separated keyword, and 0 when the
keywords field is empty. -/
def keywordSimilarity (msg : String) (f : FAQEntry) : ℚ :=
  if f.keywords = "" then 0
  else
    match (pySplit ", " f.keywords).map
        (fun kw => ratio (pyLower msg) (pyLower kw)) with
    | [] => 0
    | x :: xs => xs.foldl max x

/-- app.py lines 774-789: total_similarity = max(question similarity,
keyword similarity), both computed on lowered strings. -/
def totalSimilarity (msg : String) (f : FAQEntry) : ℚ :=
  max (ratio (pyLower msg) (pyLower f.question)) (keywordSimilarity msg f)

/-- One step of the scan of app.py lines 773-792: best_match and
highest_similarity are updated only on a strictly greater score. -/
def scanStep (msg : String) (acc : Option String × ℚ) (f : FAQEntry) :
    Option String × ℚ :=
  let t := totalSimilarity msg f
  if t > acc.2 then (some f.answer, t) else acc

/-- The scan of app.py lines 771-792, over the FAQ table in order,
starting from best_match = None, highest_similarity = 0. -/
def scanFAQs (msg : String) (faqs : List FAQEntry) :
    Option String × ℚ :=
  faqs.foldl (scanStep msg) (none, 0)

/-- The fixed fallback response of app.py lines 796-798. -/
def fallbackResponse : String :=
  "Sorry, I couldn\x27t find an answer to your question. Please try rephrasing or contact support."

/-- chat_with_bot (app.py lines 760-798): the best answer when the highest
similarity exceeds 0.4, the fallback otherwise.  (The then-branch value is
none only in the unreachable case best_match is None with a positive
highest similarity.) -/
def chat_with_bot (input : ChatInput) (faqs : List FAQEntry) :
    Option String :=
  let scan := scanFAQs input.message faqs
  if scan.2 > 0.4 then scan.1 else some fallbackResponse

/-! ## Concrete fixtures used by the claim theorems below -/

/-- A waiver rule whose only criterion tag is not among the ten recognized
tags of app.py. -/
def unknownTagWaiver : Waiver :=
  { id := "W9", name := "Mystery waiver", category := "special",
    description := "unknown criterion", waiver_rate := RateVal.single 20,
    eligibility_criteria := ["Owns a telescope"],
    required_documents := [], deadline := "",
    applicable_programs := ["CSE"], sgpa_required := 0 }

/-- A waiver rule whose only criterion tag is the family-income tag. -/
def incomeWaiver : Waiver :=
  { id := "W2", name := "Need based", category := "need",
    description := "income", waiver_rate := RateVal.single 30,
    eligibility_criteria := ["Family income below 50,000 BDT/month"],
    required_documents := [], deadline := "",
    applicable_programs := ["CSE"], sgpa_required := 0 }

/-- A profile whose family income is present and equal to 0. -/
def zeroIncomeProfile : StudentProfile :=
  { emptyProfile with family_income := some 0 }

/-- A test department whose description contains three interest keywords. -/
def mkTestDept (nm : String) : Department :=
  { name := nm, code := nm, contact := "", head := "",
    description := "ai ml cs", programs := [], faculty := "",
    location := "", website := "", established_year := 0,
    student_capacity := 0, accreditation := "" }

/-- Six departments that all clear the 0.2 score threshold on
threeInterestsInput. -/
def sixDepts : List Department :=
  [mkTestDept "D0", mkTestDept "D1", mkTestDept "D2",
   mkTestDept "D3", mkTestDept "D4", mkTestDept "D5"]

/-- A recommender query with three interests matching mkTestDept. -/
def threeInterestsInput : RecommendationInput :=
  { interests := ["AI", "ML", "CS"], academic_background := "",
    career_goals := [], ssc_gpa := none, hsc_gpa := none }

/-- A department for the interest-boost witnesses. -/
def roboticsDept : Department :=
  { name := "RoboDept", code := "RD", contact := "", head := "",
    description := "Robotics and automation", programs := ["Mechatronics"],
    faculty := "Engineering", location := "", website := "",
    established_year := 0, student_capacity := 0, accreditation := "" }

/-- A department containing the word software both in its description and
in its program names. -/
def softwareDept : Department :=
  { name := "SoftDept", code := "SD", contact := "", head := "",
    description := "Software engineering and systems",
    programs := ["Software Lab"], faculty := "Engineering", location := "",
    website := "", established_year := 0, student_capacity := 0,
    accreditation := "" }

/-- A recommender query with a single interest. -/
def mlOnlyInput : RecommendationInput :=
  { interests := ["ml theory"], academic_background := "science",
    career_goals := [], ssc_gpa := none, hsc_gpa := none }

/-- An FAQ entry whose keyword, not its question, equals the test message. -/
def keywordFAQ : FAQEntry :=
  { question := "zz", answer := "A1", keywords := "hello" }

/-- An FAQ entry whose question equals the test message up to case. -/
def questionFAQ : FAQEntry :=
  { question := "Hello", answer := "A2", keywords := "" }

/-! ## Helper lemmas: difflib model -/

/-- The block returned by find_longest_match really matches (and therefore
satisfies the bounds i + k ≤ length a, j + k ≤ length b). -/
theorem find_longest_match_isMatch (a b : List Char) :
    isMatchAt a b (find_longest_match a b).1 (find_longest_match a b).2.1
      (find_longest_match a b).2.2 = true := by
  have hmem : ((0, 0, 0) : Nat × Nat × Nat) ∈ matchCandidates a b := by
    simp only [matchCandidates, List.mem_flatMap, List.mem_reverse,
      List.mem_range, List.mem_map]
    exact ⟨0, Nat.succ_pos _, 0, Nat.succ_pos _, 0, Nat.succ_pos _, rfl⟩
  have hzero : isMatchAt a b 0 0 0 = true := by simp [isMatchAt]
  rcases hfind : (matchCandidates a b).find?
      (fun t => isMatchAt a b t.1 t.2.1 t.2.2) with _ | t
  · exact absurd hzero (by simpa using List.find?_eq_none.mp hfind _ hmem)
  · have hp := List.find?_some hfind
    simp only [find_longest_match, hfind, Option.getD_some]
    exact hp

/-- Size bounds of the longest match block. -/
theorem find_longest_match_bounds (a b : List Char) :
    (find_longest_match a b).1 + (find_longest_match a b).2.2 ≤ a.length ∧
    (find_longest_match a b).2.1 + (find_longest_match a b).2.2 ≤ b.length := by
  have h := find_longest_match_isMatch a b
  simp only [isMatchAt, Bool.and_eq_true, decide_eq_true_eq] at h
  exact ⟨h.1.1, h.1.2⟩

/-- The matched total never exceeds either length (difflib matching blocks
are disjoint in both sequences). -/
theorem matchingTotalAux_le (fuel : Nat) :
    ∀ a b : List Char,
      matchingTotalAux fuel a b ≤ a.length ∧
      matchingTotalAux fuel a b ≤ b.length := by
  induction fuel with
  | zero => intro a b; simp [matchingTotalAux]
  | succ fuel ih =>
    intro a b
    have hb := find_longest_match_bounds a b
    simp only [matchingTotalAux]
    rcases Nat.eq_zero_or_pos (find_longest_match a b).2.2 with hk | hk
    · simp [hk]
    · rw [if_neg (Nat.pos_iff_ne_zero.mp hk)]
      have h1 := ih (a.take (find_longest_match a b).1)
        (b.take (find_longest_match a b).2.1)
      have h2 := ih (a.drop ((find_longest_match a b).1 + (find_longest_match a b).2.2))
        (b.drop ((find_longest_match a b).2.1 + (find_longest_match a b).2.2))
      simp only [List.length_take, List.length_drop] at h1 h2
      omega

/-- Matching a list against itself finds the full block first. -/
theorem find_longest_match_self (a : List Char) :
    find_longest_match a a = (0, 0, a.length) := by
  have hsplit : matchCandidates a a =
      ((List.range (a.length + 1)).flatMap (fun i =>
        (List.range (a.length + 1)).map (fun j => (i, j, a.length)))) ++
      ((List.range a.length).reverse.flatMap (fun k =>
        (List.range (a.length + 1)).flatMap (fun i =>
          (List.range (a.length + 1)).map (fun j => (i, j, k))))) := by
    simp only [matchCandidates, Nat.min_self, List.range_succ,
      List.reverse_append, List.reverse_cons, List.reverse_nil,
      List.nil_append, List.singleton_append, List.flatMap_cons]
  have hhead : (List.range (a.length + 1)).flatMap (fun i =>
      (List.range (a.length + 1)).map (fun j => (i, j, a.length))) =
      ((List.range (a.length + 1)).map (fun j => ((0:Nat), j, a.length))) ++
      ((List.range a.length).map Nat.succ).flatMap (fun i =>
        (List.range (a.length + 1)).map (fun j => (i, j, a.length))) := by
    rw [List.range_succ_eq_map, List.flatMap_cons]
  have hmap : (List.range (a.length + 1)).map (fun j => ((0:Nat), j, a.length)) =
      ((0:Nat), (0:Nat), a.length) ::
      ((List.range a.length).map Nat.succ).map (fun j => ((0:Nat), j, a.length)) := by
    rw [List.range_succ_eq_map, List.map_cons, List.map_map]
  have hfull : isMatchAt a a 0 0 a.length = true := by
    simp [isMatchAt]
  have hfind : List.find? (fun t : Nat × Nat × Nat => isMatchAt a a t.1 t.2.1 t.2.2)
      (((0:Nat), (0:Nat), a.length) ::
        ((List.range a.length).map Nat.succ).map (fun j => ((0:Nat), j, a.length))) =
      some (0, 0, a.length) :=
    List.find?_cons_of_pos _ hfull
  rw [find_longest_match, hsplit, List.find?_append, hhead, List.find?_append,
    hmap, hfind]
  rfl

/-- Matching two empty lists yields total 0 at any fuel. -/
theorem matchingTotalAux_nil (fuel : Nat) :
    matchingTotalAux fuel [] [] = 0 := by
  cases fuel with
  | zero => rfl
  | succ n =>
    have h : find_longest_match [] [] = (0, 0, 0) := rfl
    simp [matchingTotalAux, h]

/-- The matched total of a list against itself, with nonzero fuel, is the
full length. -/
theorem matchingTotalAux_self (fuel : Nat) (a : List Char) :
    matchingTotalAux (fuel + 1) a a = a.length := by
  simp only [matchingTotalAux, find_longest_match_self]
  rcases Nat.eq_zero_or_pos a.length with h0 | h0
  · simp [h0]
  · rw [if_neg (Nat.pos_iff_ne_zero.mp h0)]
    simp [List.drop_length, matchingTotalAux_nil]

/-- difflib ratio of a string against itself is 1. -/
theorem ratio_self (s : String) : ratio s s = 1 := by
  unfold ratio
  by_cases h : s.toList.length + s.toList.length = 0
  · rw [if_pos h]
  · rw [if_neg h]
    have hM : matchingTotal s.toList s.toList = s.toList.length := by
      have he : s.toList.length + s.toList.length =
          (s.toList.length + s.toList.length - 1) + 1 := by omega
      rw [matchingTotal, he, matchingTotalAux_self]
    have hne : ((s.toList.length + s.toList.length : Nat) : ℚ) ≠ 0 := by
      exact_mod_cast h
    have hcast : 2 * (matchingTotal s.toList s.toList : ℚ) =
        ((s.toList.length + s.toList.length : Nat) : ℚ) := by
      rw [hM]; push_cast; ring
    rw [hcast, div_self hne]

/-- difflib ratio never exceeds 1. -/
theorem ratio_le_one (a b : String) : ratio a b ≤ 1 := by
  unfold ratio
  by_cases h : a.toList.length + b.toList.length = 0
  · rw [if_pos h]
  · rw [if_neg h]
    have hle := matchingTotalAux_le (a.toList.length + b.toList.length)
      a.toList b.toList
    rw [div_le_one (by positivity)]
    have : 2 * matchingTotal a.toList b.toList ≤
        a.toList.length + b.toList.length := by
      rw [matchingTotal]; omega
    exact_mod_cast this

/-- difflib ratio is nonnegative. -/
theorem ratio_nonneg (a b : String) : 0 ≤ ratio a b := by
  unfold ratio
  by_cases h : a.toList.length + b.toList.length = 0
  · rw [if_pos h]; norm_num
  · rw [if_neg h]
    positivity

/-- Folding max starting below a bound stays below the bound. -/
theorem foldl_max_le {c : ℚ} :
    ∀ (l : List ℚ) (x : ℚ), x ≤ c → (∀ y ∈ l, y ≤ c) → l.foldl max x ≤ c := by
  intro l
  induction l with
  | nil => intro x hx _; simpa using hx
  | cons y ys ih =>
    intro x hx hl
    simp only [List.foldl_cons]
    exact ih _ (max_le hx (hl y (List.mem_cons_self y ys)))
      (fun z hz => hl z (List.mem_cons_of_mem _ hz))

/-- The keyword similarity of an entry never exceeds 1. -/
theorem keywordSimilarity_le_one (msg : String) (f : FAQEntry) :
    keywordSimilarity msg f ≤ 1 := by
  unfold keywordSimilarity
  by_cases hk : f.keywords = ""
  · simp [hk]
  · rw [if_neg hk]
    rcases hm : (pySplit ", " f.keywords).map
        (fun kw => ratio (pyLower msg) (pyLower kw)) with _ | ⟨x, xs⟩
    · norm_num
    · have hx : x ≤ 1 := by
        have : x ∈ (pySplit ", " f.keywords).map
            (fun kw => ratio (pyLower msg) (pyLower kw)) := by
          rw [hm]; exact List.mem_cons_self x xs
        obtain ⟨kw, _, hkw⟩ := List.mem_map.mp this
        rw [← hkw]; exact ratio_le_one _ _
      have hxs : ∀ y ∈ xs, y ≤ 1 := by
        intro y hy
        have : y ∈ (pySplit ", " f.keywords).map
            (fun kw => ratio (pyLower msg) (pyLower kw)) := by
          rw [hm]; exact List.mem_cons_of_mem x hy
        obtain ⟨kw, _, hkw⟩ := List.mem_map.mp this
        rw [← hkw]; exact ratio_le_one _ _
      exact foldl_max_le xs x hx hxs

/-- The total similarity of an entry never exceeds 1. -/
theorem totalSimilarity_le_one (msg : String) (f : FAQEntry) :
    totalSimilarity msg f ≤ 1 :=
  max_le (ratio_le_one _ _) (keywordSimilarity_le_one msg f)

/-- An entry whose question equals the message up to case scores exactly 1. -/
theorem totalSimilarity_eq_one_of_question (msg : String) (f : FAQEntry)
    (h : pyLower msg = pyLower f.question) :
    totalSimilarity msg f = 1 := by
  unfold totalSimilarity
  rw [h, ratio_self]
  exact max_eq_left (keywordSimilarity_le_one msg f)

/-- Once the running highest similarity is 1, no later entry updates the
scan (strict comparison against scores that never exceed 1). -/
theorem foldl_scanStep_ceiling (msg : String) :
    ∀ (l : List FAQEntry) (b : Option String),
      l.foldl (scanStep msg) (b, 1) = (b, 1) := by
  intro l
  induction l with
  | nil => intro b; rfl
  | cons f rest ih =>
    intro b
    have hstep : scanStep msg (b, 1) f = (b, 1) := by
      unfold scanStep
      rw [if_neg]
      simp only [not_lt]
      exact totalSimilarity_le_one msg f
    simp only [List.foldl_cons, hstep, ih]

/-- If some entry of the table scores exactly 1 and the accumulator is
still below 1, the scan ends at the first entry scoring 1. -/
theorem foldl_scanStep_reaches_one (msg : String) :
    ∀ (l : List FAQEntry) (acc : Option String × ℚ), acc.2 < 1 →
      (∃ e ∈ l, totalSimilarity msg e = 1) →
      ∃ f, l.find? (fun g => decide (totalSimilarity msg g = 1)) = some f ∧
        l.foldl (scanStep msg) acc = (some f.answer, 1) := by
  intro l
  induction l with
  | nil => intro acc _ hex; simp at hex
  | cons f0 rest ih =>
    intro acc hacc hex
    by_cases h0 : totalSimilarity msg f0 = 1
    · refine ⟨f0, ?_, ?_⟩
      · exact List.find?_cons_of_pos _ (by simpa using h0)
      · have hstep : scanStep msg acc f0 = (some f0.answer, 1) := by
          unfold scanStep
          rw [h0, if_pos hacc]
        simp only [List.foldl_cons, hstep]
        exact foldl_scanStep_ceiling msg rest (some f0.answer)
    · have hex2 : ∃ e ∈ rest, totalSimilarity msg e = 1 := by
        rcases hex with ⟨e, he, hone⟩
        rcases List.mem_cons.mp he with rfl | hmem
        · exact absurd hone h0
        · exact ⟨e, hmem, hone⟩
      have hlt : (scanStep msg acc f0).2 < 1 := by
        unfold scanStep
        by_cases hgt : totalSimilarity msg f0 > acc.2
        · rw [if_pos hgt]
          exact lt_of_le_of_ne (totalSimilarity_le_one msg f0) h0
        · rw [if_neg hgt]
          exact hacc
      obtain ⟨f, hf, hfold⟩ := ih (scanStep msg acc f0) hlt hex2
      refine ⟨f, ?_, ?_⟩
      · rw [List.find?_cons_of_neg _ (by simpa using h0)]
        exact hf
      · simpa only [List.foldl_cons] using hfold

/-! ## Helper lemmas: stable descending sort -/

/-- Filtering the elements of one key value commutes with orderedInsert on
the descending key comparison: the inserted element lands before every
equal-key element already present. -/
theorem filter_orderedInsert_key {α β : Type} [LinearOrder β]
    [DecidableEq β] (κ : α → β)
    [DecidableRel (fun a b : α => κ b ≤ κ a)] (c : β) (x : α) :
    ∀ l : List α,
      (List.orderedInsert (fun a b => κ b ≤ κ a) x l).filter
          (fun y => decide (κ y = c)) =
        if κ x = c then
          x :: l.filter (fun y => decide (κ y = c))
        else l.filter (fun y => decide (κ y = c)) := by
  intro l
  induction l with
  | nil =>
    by_cases hx : κ x = c <;>
      simp [List.orderedInsert, List.filter, hx]
  | cons b l ih =>
    by_cases hr : κ b ≤ κ x
    · have hoi : List.orderedInsert (fun a b => κ b ≤ κ a) x (b :: l) =
          x :: b :: l := by
        simp only [List.orderedInsert]
        rw [if_pos hr]
      rw [hoi]
      by_cases hx : κ x = c <;>
        simp [List.filter_cons, hx]
    · have hlt : κ x < κ b := lt_of_not_le hr
      have hoi : List.orderedInsert (fun a b => κ b ≤ κ a) x (b :: l) =
          b :: List.orderedInsert (fun a b => κ b ≤ κ a) x l := by
        simp only [List.orderedInsert]
        rw [if_neg hr]
      rw [hoi]
      by_cases hx : κ x = c
      · have hb : ¬ κ b = c := fun hbc =>
          absurd (hlt.trans_eq (hbc.trans hx.symm)) (lt_irrefl _)
        rw [List.filter_cons, if_neg (by simpa using hb), ih, if_pos hx]
        simp [List.filter_cons, hb, hx]
      · rw [List.filter_cons, ih, if_neg hx, if_neg hx, List.filter_cons]

/-- Stability of the descending insertion sort: the subsequence of elements
with any fixed key value is unchanged by sorting. -/
theorem filter_insertionSort_key {α β : Type} [LinearOrder β]
    [DecidableEq β] (κ : α → β)
    [DecidableRel (fun a b : α => κ b ≤ κ a)] (c : β) :
    ∀ l : List α,
      (List.insertionSort (fun a b => κ b ≤ κ a) l).filter
          (fun y => decide (κ y = c)) =
        l.filter (fun y => decide (κ y = c)) := by
  intro l
  induction l with
  | nil => rfl
  | cons a l ih =>
    have hsort : List.insertionSort (fun a b => κ b ≤ κ a) (a :: l) =
        List.orderedInsert (fun a b => κ b ≤ κ a) a
          (List.insertionSort (fun a b => κ b ≤ κ a) l) := rfl
    rw [hsort, filter_orderedInsert_key κ c a, ih, List.filter_cons]
    by_cases hx : κ a = c
    · rw [if_pos hx, if_pos (by simpa using hx)]
    · rw [if_neg hx, if_neg (by simpa using hx)]

/-- The descending insertion sort by a key yields a list that is pairwise
nonincreasing in that key. -/
theorem pairwise_insertionSort_key {α β : Type} [LinearOrder β] (κ : α → β)
    [DecidableRel (fun a b : α => κ b ≤ κ a)] (l : List α) :
    List.Pairwise (fun a b => κ b ≤ κ a)
      (List.insertionSort (fun a b => κ b ≤ κ a) l) := by
  haveI : IsTotal α (fun a b => κ b ≤ κ a) := ⟨fun a b => le_total (κ b) (κ a)⟩
  haveI : IsTrans α (fun a b => κ b ≤ κ a) :=
    ⟨fun _ _ _ h1 h2 => le_trans h2 h1⟩
  exact List.sorted_insertionSort _ l

/-! ## Helper lemmas: keyword boost -/

/-- The boost accumulation commutes with shifting the accumulator. -/
theorem foldl_addBoost_shift (g : String → Bool) :
    ∀ (l : List String) (x c : ℚ),
      l.foldl (fun kb s => if g s then kb + 0.1 else kb) (x + c) =
        l.foldl (fun kb s => if g s then kb + 0.1 else kb) x + c := by
  intro l
  induction l with
  | nil => intro x c; rfl
  | cons s l ih =>
    intro x c
    simp only [List.foldl_cons]
    by_cases hg : g s
    · rw [if_pos hg, if_pos hg, add_right_comm, ih]
    · rw [if_neg hg, if_neg hg, ih]

/-- Appending one interest keyword changes the boost by exactly 0.1 when it
matches and 0 when it does not. -/
theorem keywordBoost_snoc (interests career_goals : List String)
    (d : Department) (k : String) :
    keywordBoost (interests ++ [k]) career_goals d =
      keywordBoost interests career_goals d +
        (if interestMatches d k then (0.1 : ℚ) else 0) := by
  unfold keywordBoost
  rw [List.foldl_append]
  simp only [List.foldl_cons, List.foldl_nil]
  by_cases h : interestMatches d k
  · rw [if_pos h, if_pos h, foldl_addBoost_shift]
  · rw [if_neg h, if_neg h, add_zero]

/-- The evaluator output depends on the profile only through
meets_criteria. -/
theorem calculate_waivers_profile_congr (codes : List String)
    (wd : List Waiver) (ssc hsc : ℚ) (is_new : Bool) (sgpa : ℚ)
    {p1 p2 : StudentProfile}
    (h : ∀ w, meetsCriteria ssc hsc is_new sgpa p1 w =
      meetsCriteria ssc hsc is_new sgpa p2 w) :
    calculate_waivers codes wd ssc hsc is_new sgpa p1 =
      calculate_waivers codes wd ssc hsc is_new sgpa p2 := by
  unfold calculate_waivers eligibleList
  have hfilter : wd.filter (fun w =>
      applicableTo codes w && meetsCriteria ssc hsc is_new sgpa p1 w) =
      wd.filter (fun w =>
        applicableTo codes w && meetsCriteria ssc hsc is_new sgpa p2 w) :=
    List.filter_congr (fun w _ => by rw [h w])
  rw [hfilter]

/-! ## Claim theorems -/

unseal Rat.add Rat.mul Rat.inv Rat.sub Rat.ofScientific in
/-- C1: the claim states that a rule carrying an unrecognized criterion tag
never appears in the evaluator output (fail closed).  The code contradicts
this: it consults only the ten recognized tags, so a rule whose only tag is
unrecognized qualifies whenever its remaining checks pass.  This theorem
evaluates the code at such a failing input: the rule with the unrecognized
tag "Owns a telescope" is returned. -/
theorem c1_unknown_tag_rule_qualifies :
    calculate_waivers ["CSE"] [unknownTagWaiver] 0 0 true 0 emptyProfile =
      [mkEligible unknownTagWaiver] := by
  decide

unseal Rat.add Rat.mul Rat.inv Rat.sub Rat.ofScientific in
/-- C4 counterexample: the claim says the family-income criterion passes
for every present value in the interval from 0 inclusive to 50000
exclusive.  For a present family income of exactly 0 the code treats the
value as falsy and the criterion fails: the rule carrying only this tag is
excluded. -/
theorem c4_counterexample_zero_income :
    zeroIncomeProfile.family_income = some 0 ∧ (0 : ℚ) < 50000 ∧
    familyIncomeFails zeroIncomeProfile = true ∧
    calculate_waivers ["CSE"] [incomeWaiver] 5 5 true 0 zeroIncomeProfile
      = [] := by
  refine ⟨rfl, by norm_num, by decide, by decide⟩

/-- C4 (amended): the family-income criterion passes if and only if the
family_income of the profile is present with a nonzero value below
50000 (a present value of 0 is treated as absent by Python truthiness and
fails).  Moreover a rule carrying the tag qualifies only if the criterion
passes. -/
theorem c4_family_income_criterion (p : StudentProfile) :
    (familyIncomeFails p = false ↔
      ∃ v : ℚ, p.family_income = some v ∧ v ≠ 0 ∧ v < 50000) ∧
    ∀ (w : Waiver) (ssc hsc sgpa : ℚ) (is_new : Bool),
      w.eligibility_criteria.contains
        "Family income below 50,000 BDT/month" = true →
      meetsCriteria ssc hsc is_new sgpa p w = true →
      familyIncomeFails p = false := by
  constructor
  · rcases hfi : p.family_income with _ | v
    · simp [familyIncomeFails, truthyQ, hfi]
    · simp only [familyIncomeFails, truthyQ, hfi, Option.getD_some,
        Bool.or_eq_false_iff, Bool.not_eq_false', decide_eq_true_eq,
        decide_eq_false_iff_not, not_le, Option.some.injEq]
      constructor
      · rintro ⟨hne, hlt⟩
        exact ⟨v, rfl, hne, hlt⟩
      · rintro ⟨u, rfl, hne, hlt⟩
        exact ⟨hne, hlt⟩
  · intro w ssc hsc sgpa is_new htag hmeets
    simp only [meetsCriteria, htag, Bool.true_and, Bool.and_eq_true,
      Bool.not_eq_true'] at hmeets
    exact hmeets.1.1.1.1.1.1.1.2

/-- C9: for each of the six boolean profile attributes read by the
criterion predicates, a profile with the key absent produces exactly the
same evaluator output as the profile with the key present and false
(Python truthiness identifies None and False). -/
theorem c9_absent_eq_false (codes : List String) (wd : List Waiver)
    (ssc hsc : ℚ) (is_new : Bool) (sgpa : ℚ) (p : StudentProfile) :
    (calculate_waivers codes wd ssc hsc is_new sgpa
        { p with is_freedom_fighter_child := none } =
      calculate_waivers codes wd ssc hsc is_new sgpa
        { p with is_freedom_fighter_child := some false }) ∧
    (calculate_waivers codes wd ssc hsc is_new sgpa
        { p with is_diu_employee_relative := none } =
      calculate_waivers codes wd ssc hsc is_new sgpa
        { p with is_diu_employee_relative := some false }) ∧
    (calculate_waivers codes wd ssc hsc is_new sgpa
        { p with has_sports_achievement := none } =
      calculate_waivers codes wd ssc hsc is_new sgpa
        { p with has_sports_achievement := some false }) ∧
    (calculate_waivers codes wd ssc hsc is_new sgpa
        { p with has_diploma := none } =
      calculate_waivers codes wd ssc hsc is_new sgpa
        { p with has_diploma := some false }) ∧
    (calculate_waivers codes wd ssc hsc is_new sgpa
        { p with group_admission := none } =
      calculate_waivers codes wd ssc hsc is_new sgpa
        { p with group_admission := some false }) ∧
    (calculate_waivers codes wd ssc hsc is_new sgpa
        { p with is_international_student := none } =
      calculate_waivers codes wd ssc hsc is_new sgpa
        { p with is_international_student := some false }) := by
  refine ⟨?_, ?_, ?_, ?_, ?_, ?_⟩ <;>
    (apply calculate_waivers_profile_congr; intro w;
      simp [meetsCriteria, truthyB, familyIncomeFails, truthyQ])

/-- C5: the evaluator output is sorted by waiver percentage in descending
order, and for every percentage value the subsequence of entries carrying
it is exactly the corresponding subsequence of the unsorted eligible list,
which is in waiver-table encounter order (stability of Python sorted). -/
theorem c5_sorted_desc_and_stable (codes : List String) (wd : List Waiver)
    (ssc hsc : ℚ) (is_new : Bool) (sgpa : ℚ) (p : StudentProfile) :
    List.Pairwise (fun a b : EligibleWaiver => b.pct ≤ a.pct)
      (calculate_waivers codes wd ssc hsc is_new sgpa p) ∧
    ∀ q : Int,
      (calculate_waivers codes wd ssc hsc is_new sgpa p).filter
          (fun e => decide (e.pct = q)) =
        (eligibleList codes wd ssc hsc is_new sgpa p).filter
          (fun e => decide (e.pct = q)) := by
  constructor
  · unfold calculate_waivers sortEligible
    exact @pairwise_insertionSort_key EligibleWaiver Int _
      (fun e => e.pct) (fun _ _ => inferInstance)
      (eligibleList codes wd ssc hsc is_new sgpa p)
  · intro q
    unfold calculate_waivers sortEligible
    exact @filter_insertionSort_key EligibleWaiver Int _ _
      (fun e => e.pct) (fun _ _ => inferInstance) q
      (eligibleList codes wd ssc hsc is_new sgpa p)

/-- C2 (amended): every returned department has total match score strictly
above 0.2 and the output holds at most 5 entries; the converse inclusion
(score above 0.2 implies presence in the output) holds whenever at most 5
departments clear the threshold.  When more than 5 departments clear it,
the top-5 truncation drops the surplus, refuting the unconditional
if-and-only-if of the claim. -/
theorem c2_threshold_and_top5 (departments : List Department)
    (similarities : List ℚ) (input : RecommendationInput) :
    (∀ r ∈ recommend_programs departments similarities input,
      r.match_score > 0.2) ∧
    (recommend_programs departments similarities input).length ≤ 5 ∧
    ((candidates departments similarities input).length ≤ 5 →
      ∀ pair ∈ departments.enum,
        totalScore (similarities.getD pair.1 0) input pair.2 > 0.2 →
        mkRecommendation (similarities.getD pair.1 0) input pair.2 ∈
          recommend_programs departments similarities input) := by
  refine ⟨?_, ?_, ?_⟩
  · intro r hr
    have h1 : r ∈ sortRecommendations (candidates departments similarities input) :=
      List.mem_of_mem_take (by simpa only [recommend_programs] using hr)
    have h2 : r ∈ candidates departments similarities input := by
      unfold sortRecommendations at h1
      exact (List.perm_insertionSort _ _).mem_iff.mp h1
    unfold candidates at h2
    obtain ⟨pair, hpair, rfl⟩ := List.mem_map.mp h2
    have hcond := (List.mem_filter.mp hpair).2
    simpa [mkRecommendation] using of_decide_eq_true hcond
  · simp only [recommend_programs]
    exact List.length_take_le 5 _
  · intro hlen pair hmem hscore
    have hc : mkRecommendation (similarities.getD pair.1 0) input pair.2 ∈
        candidates departments similarities input := by
      unfold candidates
      exact List.mem_map_of_mem _
        (List.mem_filter.mpr ⟨hmem, by simpa using hscore⟩)
    have hsortlen :
        (sortRecommendations (candidates departments similarities input)).length =
          (candidates departments similarities input).length := by
      unfold sortRecommendations
      exact List.length_insertionSort _ _
    have htake :
        (sortRecommendations (candidates departments similarities input)).take 5 =
          sortRecommendations (candidates departments similarities input) :=
      List.take_of_length_le (by rw [hsortlen]; exact hlen)
    simp only [recommend_programs]
    rw [htake]
    unfold sortRecommendations
    exact (List.perm_insertionSort _ _).mem_iff.mpr hc

unseal Rat.add Rat.mul Rat.inv Rat.sub Rat.ofScientific in
/-- C2 counterexample: with six departments all scoring 0.3 (keyword boosts
alone), the sixth clears the 0.2 threshold yet is absent from the output,
which is truncated to five entries.  This refutes the unconditional
if-and-only-if of the claim. -/
theorem c2_counterexample_sixth_candidate_dropped :
    totalScore 0 threeInterestsInput (mkTestDept "D5") > 0.2 ∧
    (5, mkTestDept "D5") ∈ sixDepts.enum ∧
    mkRecommendation 0 threeInterestsInput (mkTestDept "D5") ∉
      recommend_programs sixDepts [] threeInterestsInput ∧
    (recommend_programs sixDepts [] threeInterestsInput).length = 5 := by
  refine ⟨by decide, by decide, by decide, by decide⟩

unseal Rat.add Rat.mul Rat.inv Rat.sub Rat.ofScientific in
/-- Witness for C2: at a concrete input with a single candidate, the
candidate with score above 0.2 is in the output and the output length is
at most 5. -/
theorem c2_threshold_and_top5_witness :
    mkRecommendation 0 threeInterestsInput (mkTestDept "D0") ∈
      recommend_programs [mkTestDept "D0"] [] threeInterestsInput ∧
    (recommend_programs [mkTestDept "D0"] [] threeInterestsInput).length ≤ 5 := by
  have h := c2_threshold_and_top5 [mkTestDept "D0"] [] threeInterestsInput
  refine ⟨?_, h.2.1⟩
  have hmem := h.2.2 (by decide) (0, mkTestDept "D0") (by decide) (by decide)
  exact hmem

/-- C3: extending the interests of a query with a keyword that occurs,
case-insensitively, in the description of a department and was not already
among the interests raises the total score of that department by exactly
0.1 (and in particular never lowers it).  The cosine base score, computed
upstream from the text index, is the explicit base argument and is held
fixed, as in the decomposition total score = base score + boosts. -/
theorem c3_interest_boost_exact (base : ℚ) (input : RecommendationInput)
    (d : Department) (k : String)
    (hmatch : lowerIn k d.description = true)
    (hnew : k ∉ input.interests) :
    totalScore base { input with interests := input.interests ++ [k] } d =
      totalScore base input d + 0.1 ∧
    totalScore base input d ≤
      totalScore base { input with interests := input.interests ++ [k] } d := by
  have him : interestMatches d k = true := by
    unfold interestMatches
    rw [hmatch]
    rfl
  have hmain : totalScore base { input with interests := input.interests ++ [k] } d =
      totalScore base input d + 0.1 := by
    unfold totalScore
    have hkb := keywordBoost_snoc input.interests input.career_goals d k
    simp only [him, if_true] at hkb
    rw [hkb]
    ring
  exact ⟨hmain, by rw [hmain]; linarith⟩

unseal Rat.add Rat.mul Rat.inv Rat.sub Rat.ofScientific in
/-- Witness for C3: adding the interest ROBOTICS, which occurs lowered in
the description of roboticsDept, raises the score by exactly 0.1. -/
theorem c3_interest_boost_exact_witness :
    totalScore 0 { mlOnlyInput with
        interests := mlOnlyInput.interests ++ ["ROBOTICS"] } roboticsDept =
      totalScore 0 mlOnlyInput roboticsDept + 0.1 :=
  (c3_interest_boost_exact 0 mlOnlyInput roboticsDept "ROBOTICS"
    (by decide) (by decide)).1

/-- C10: an interest keyword occurring, case-insensitively, both in the
description of a department and in its space-joined program names
contributes a single boost of 0.1, not two (the two substring tests are
combined with a disjunction before the one increment). -/
theorem c10_single_boost (interests career_goals : List String)
    (d : Department) (k : String)
    (hdesc : lowerIn k d.description = true)
    (hprog : lowerIn k (pyJoin " " d.programs) = true) :
    keywordBoost (interests ++ [k]) career_goals d =
      keywordBoost interests career_goals d + 0.1 := by
  have him : interestMatches d k = true := by
    unfold interestMatches
    rw [hdesc]
    rfl
  have hkb := keywordBoost_snoc interests career_goals d k
  simp only [him, if_true] at hkb
  exact hkb

unseal Rat.add Rat.mul Rat.inv Rat.sub Rat.ofScientific in
/-- Witness for C10: the keyword Software occurs in both the description
and the program names of softwareDept, and contributes exactly 0.1. -/
theorem c10_single_boost_witness :
    keywordBoost (["ml theory"] ++ ["Software"]) [] softwareDept =
      keywordBoost ["ml theory"] [] softwareDept + 0.1 :=
  c10_single_boost ["ml theory"] [] softwareDept "Software"
    (by decide) (by decide)

/-- C7: the recommender never uses the GPA inputs.  Two queries agreeing on
interests, academic background and career goals produce the same query
document (hence the same cosine similarities) and the same output, whatever
their ssc_gpa and hsc_gpa. -/
theorem c7_gpa_dead_input (departments : List Department)
    (similarities : List ℚ) (i1 i2 : RecommendationInput)
    (hint : i1.interests = i2.interests)
    (hbg : i1.academic_background = i2.academic_background)
    (hgoals : i1.career_goals = i2.career_goals) :
    user_text i1 = user_text i2 ∧
    recommend_programs departments similarities i1 =
      recommend_programs departments similarities i2 := by
  cases i1 with
  | mk a1 b1 c1 d1 e1 =>
    cases i2 with
    | mk a2 b2 c2 d2 e2 =>
      dsimp only at hint hbg hgoals
      subst hint
      subst hbg
      subst hgoals
      exact ⟨rfl, rfl⟩

/-- Witness for C7: two queries differing only in their GPA fields yield
the same query text and the same recommendations. -/
theorem c7_gpa_dead_input_witness :
    user_text ⟨["x"], "bg", ["y"], some 4, some 5⟩ =
      user_text ⟨["x"], "bg", ["y"], none, some 3⟩ ∧
    recommend_programs [] [] ⟨["x"], "bg", ["y"], some 4, some 5⟩ =
      recommend_programs [] [] ⟨["x"], "bg", ["y"], none, some 3⟩ :=
  c7_gpa_dead_input [] [] _ _ rfl rfl rfl

/-- C8: the FAQ matcher reads only the message of the chat input; the
session_id has no influence on the response. -/
theorem c8_session_id_independent (faqs : List FAQEntry)
    (m1 m2 : ChatInput) (h : m1.message = m2.message) :
    chat_with_bot m1 faqs = chat_with_bot m2 faqs := by
  cases m1 with
  | mk msg1 sid1 =>
    cases m2 with
    | mk msg2 sid2 =>
      dsimp only at h
      subst h
      rfl

/-- Witness for C8: the same message under two different session ids gets
the same response. -/
theorem c8_session_id_independent_witness :
    chat_with_bot ⟨"hi", "a"⟩ [] = chat_with_bot ⟨"hi", "b"⟩ [] :=
  c8_session_id_independent [] _ _ rfl

/-- C6 (amended): when the message equals the question of some FAQ entry up
to case, the total similarity of that entry is exactly 1, and the matcher
returns the answer of the first entry in table order whose total similarity
is 1.  That first perfect entry is usually the question-matching one, but
an earlier entry can also reach 1 through an exactly matching keyword, in
which case its answer is returned instead (see the counterexample). -/
theorem c6_first_perfect_score_wins (faqs : List FAQEntry)
    (input : ChatInput) (e : FAQEntry) (he : e ∈ faqs)
    (hq : pyLower input.message = pyLower e.question) :
    totalSimilarity input.message e = 1 ∧
    ∃ f, faqs.find?
        (fun g => decide (totalSimilarity input.message g = 1)) = some f ∧
      chat_with_bot input faqs = some f.answer := by
  have h1 := totalSimilarity_eq_one_of_question input.message e hq
  obtain ⟨f, hf, hscan⟩ := foldl_scanStep_reaches_one input.message faqs
    (none, 0) (by norm_num) ⟨e, he, h1⟩
  refine ⟨h1, f, hf, ?_⟩
  unfold chat_with_bot scanFAQs
  rw [hscan]
  norm_num

unseal Rat.add Rat.mul Rat.inv Rat.sub Rat.ofScientific in
/-- Witness for C6: a one-entry table whose question matches the message up
to case scores 1 and its answer is returned. -/
theorem c6_first_perfect_score_wins_witness :
    totalSimilarity "hello" questionFAQ = 1 ∧
    chat_with_bot ⟨"hello", "s2"⟩ [questionFAQ] = some "A2" := by
  obtain ⟨h1, f, hf, hchat⟩ := c6_first_perfect_score_wins [questionFAQ]
    ⟨"hello", "s2"⟩ questionFAQ (List.mem_singleton_self questionFAQ)
    (by decide)
  have hfind : List.find?
      (fun g => decide (totalSimilarity "hello" g = 1)) [questionFAQ] =
      some questionFAQ := by decide
  have hfq : f = questionFAQ := Option.some.inj (hf.symm.trans hfind)
  subst hfq
  exact ⟨h1, hchat⟩

unseal Rat.add Rat.mul Rat.inv Rat.sub Rat.ofScientific in
/-- C6 counterexample: the message hello equals the question of the second
entry up to case, but the first entry reaches similarity 1 through its
keyword hello, and since the scan updates only on strictly greater scores
the answer A1 of the first entry is returned instead of the answer A2 of
the question-matching entry. -/
theorem c6_counterexample_keyword_tie :
    pyLower "hello" = pyLower questionFAQ.question ∧
    questionFAQ ∈ [keywordFAQ, questionFAQ] ∧
    questionFAQ.answer = "A2" ∧
    chat_with_bot ⟨"hello", "s1"⟩ [keywordFAQ, questionFAQ] = some "A1" ∧
    chat_with_bot ⟨"hello", "s1"⟩ [keywordFAQ, questionFAQ] ≠
      some questionFAQ.answer := by
  refine ⟨by decide, by decide, rfl, by decide, by decide⟩
